import Mathlib

/-!
Shallow embedding of src/interruptible_threading.py.

The module implements cooperative thread cancellation: per-thread state
(wait flags, a wakeup pipe, child thread ids), a process-wide registry,
a cooperative sleep, two multiplexer wrappers (a DefaultSelector subclass
and a patched select.select), and an interrupt() delivery state machine.

Mutable Python state is passed explicitly.  A thread's per-thread record
(_State instance) becomes the structure ThreadState; the process registry
becomes an association list from thread id to ThreadState.  The underlying
OS waits (condition wait, inner select) are modelled by environment-supplied
results (the list of ready events / ready descriptor lists); concurrent
interleaving points (has the target unregistered between the first lookup
and the monitor acquisition; how many threads PyThreadState_SetAsyncExc
affected; is a child thread alive) are modelled by an explicit Env record.
KeyboardInterrupt raised by a wait is an Except.error; ValueError and
SystemError raised by interrupt() are outcome constructors.
-/

namespace InterruptibleThreading

/-- Per-thread record, from class _State.__init__ (lines 41-54 of
interruptible_threading.py): child thread ids, the two wait flags with their
cancel-notified flags, the wakeup pipe ends, and the number of unread bytes
currently buffered in the pipe (the os.write / drain state). -/
structure ThreadState where
  childrenTids : List Nat
  sleeping : Bool
  cancelSleepNotified : Bool
  selecting : Bool
  cancelSelectNotified : Bool
  rfd : Nat
  wfd : Nat
  pendingBytes : Nat
deriving Repr, DecidableEq

/-- The process-wide registry _State.registry: thread id to ThreadState. -/
abbrev Registry : Type := List (Nat × ThreadState)

/-- Registry lookup (_State.get_state_by_ident / registry.get). -/
def Registry.find : Registry → Nat → Option ThreadState
  | [], _ => none
  | (t, s) :: rest, tid => if t = tid then some s else Registry.find rest tid

/-- Point update of the registry entry for a thread id (mutation of the
_State object that registry[tid] aliases). -/
def Registry.set : Registry → Nat → ThreadState → Registry
  | [], _, _ => []
  | (t, s) :: rest, tid, st =>
    if t = tid then (t, st) :: rest else (t, s) :: Registry.set rest tid st

/-- Observable steps taken by _coop_sleep, in order: the fallback
_ORIG_SLEEP call, the writes to st.sleeping under the monitor, and the
condition wait with its timeout. -/
inductive SleepEvent (D : Type) where
  | origSleep (secs : D)
  | setSleeping (b : Bool)
  | condWait (secs : D)
deriving Repr, DecidableEq

/-- Result of one _coop_sleep call: the caller's (possibly updated)
ThreadState, the trace of steps taken, and whether KeyboardInterrupt
was raised at the end. -/
structure SleepResult (D : Type) where
  state : Option ThreadState
  trace : List (SleepEvent D)
  interrupted : Bool
deriving Repr, DecidableEq

/-- _coop_sleep (lines 84-97).  onMainThread models
threading.get_ident() == _MAIN_IDENT; st is the result of
_State.get_state_by_ident() for the calling thread (none when unmanaged).
The managed path sets sleeping, waits on the condition variable with the
given timeout, clears sleeping, and raises KeyboardInterrupt exactly when
cancel_sleep_notified is set. -/
def coop_sleep {D : Type} (onMainThread : Bool) (st : Option ThreadState) (secs : D) :
    SleepResult D :=
  if onMainThread then ⟨st, [.origSleep secs], false⟩
  else
    match st with
    | none => ⟨none, [.origSleep secs], false⟩
    | some s =>
      let s1 := { s with sleeping := false }
      ⟨some s1, [.setSleeping true, .condWait secs, .setSleeping false],
        s1.cancelSleepNotified⟩

/-- A selectors.SelectorKey as far as the wrapper inspects it: the file
descriptor and the data tag it was registered with. -/
structure SelKey where
  fd : Nat
  data : String
deriving Repr, DecidableEq

/-- One ready event from the inner selector: (key, mask). -/
abbrev SelEvent : Type := SelKey × Nat

/-- _InterruptibleSelector.select (lines 113-138).  st is self._st; events
is the list the inner selector's select returned (environment).  Transcribed
literally: select_cancelled compares key.data against the string "__wakup__"
(as written at line 124), while the registration in __init__ and the
drain-and-filter loop use "__wakeup__".  Draining the pipe zeroes
pendingBytes.  The error value stands for KeyboardInterrupt. -/
def selector_select (st : Option ThreadState) (events : List SelEvent) :
    Option ThreadState × Except Unit (List SelEvent) :=
  match st with
  | none => (none, .ok events)
  | some s =>
    let s1 := { s with selecting := false }
    let select_cancelled :=
      events.any (fun ev => ev.1.data = "__wakup__") || s1.cancelSelectNotified
    let s2 :=
      if events.any (fun ev => ev.1.data = "__wakeup__") then
        { s1 with pendingBytes := 0 }
      else s1
    let out := events.filter (fun ev => ev.1.data ≠ "__wakeup__")
    if select_cancelled then (some s2, .error ()) else (some s2, .ok out)

/-- Iterated selector waits on the same thread: feed each environment-chosen
ready list through selector_select, threading the state. -/
def selector_waits (st : Option ThreadState) :
    List (List SelEvent) → Option ThreadState × List (Except Unit (List SelEvent))
  | [] => (st, [])
  | evs :: rest =>
    let r := selector_select st evs
    let rs := selector_waits r.1 rest
    (rs.1, r.2 :: rs.2)

/-- _patched_select (lines 148-202).  Caller-supplied waitable objects are
modelled by their file descriptors (the _fileno of each object), so the
fd maps rmap/wmap/xmap are identity pairings.  rr, ww, xx are the fd lists
the underlying _ORIG_SELECT returned (environment).  On the managed path the
wakeup read end is appended to the watched read list when absent, the result
is cancelled when that fd is ready or cancel_select_notified is set, the
pipe is drained when that fd is ready, and otherwise the ready fd lists are
mapped back through the caller's lists. -/
def patched_select (onMainThread : Bool) (st : Option ThreadState)
    (rlist wlist xlist : List Nat) (rr ww xx : List Nat) :
    Option ThreadState × Except Unit (List Nat × List Nat × List Nat) :=
  if onMainThread then (st, .ok (rr, ww, xx))
  else
    match st with
    | none => (none, .ok (rr, ww, xx))
    | some s =>
      let s1 := { s with selecting := false }
      let select_cancelled := rr.contains s.rfd || s1.cancelSelectNotified
      let s2 := if rr.contains s.rfd then { s1 with pendingBytes := 0 } else s1
      if select_cancelled then (some s2, .error ())
      else
        (some s2, .ok
          (rlist.filter (fun o => rr.contains o),
           wlist.filter (fun o => ww.contains o),
           xlist.filter (fun o => xx.contains o)))

/-- The watched read-fd list _patched_select actually hands to the
underlying select: the caller's list, with the wakeup read end appended
when absent (lines 167, 171-172). -/
def patched_select_rfd_list (rlist : List Nat) (rfd : Nat) : List Nat :=
  if rlist.contains rfd then rlist else rlist ++ [rfd]

/-- What the body of interrupt() under the cancel monitor did
(lines 252-266): nothing because the target was gone, a condition-variable
notify, a wakeup-pipe write, a successful PyThreadState_SetAsyncExc
injection, or one of the two error exits (ValueError when zero threads
matched, SystemError when more than one did). -/
inductive DeliveryOutcome where
  | notRegistered
  | wokeSleeper
  | wroteWakeupByte
  | injectedAsync
  | errNoSuchThread
  | errMultipleTargets
deriving Repr, DecidableEq

/-- The monitored delivery section of InterruptibleThread.interrupt
(lines 252-266) together with _raise_keyboard_interrupt_in_thread
(lines 229-235).  stillRegistered is the re-check of the registry under
the monitor; asyncRc is the count of threads PyThreadState_SetAsyncExc
reports as affected.  Both cancel flags are assigned from the wait flags
before the three-way branch, exactly as in the source. -/
def interrupt_deliver (stillRegistered : Bool) (st : ThreadState) (asyncRc : Nat) :
    ThreadState × DeliveryOutcome :=
  if !stillRegistered then (st, .notRegistered)
  else
    let st1 := { st with
      cancelSleepNotified := st.sleeping,
      cancelSelectNotified := st.selecting }
    if st1.cancelSleepNotified then (st1, .wokeSleeper)
    else if st1.cancelSelectNotified then
      ({ st1 with pendingBytes := st1.pendingBytes + 1 }, .wroteWakeupByte)
    else if asyncRc = 0 then (st1, .errNoSuchThread)
    else if asyncRc > 1 then (st1, .errMultipleTargets)
    else (st1, .injectedAsync)

/-- How one whole interrupt() call ends: normal return, ValueError
("no such thread"), SystemError ("SetAsyncExc affected multiple threads"),
or recursion fuel exhausted (a model artifact; Python would recurse as deep
as the children graph goes). -/
inductive InterruptOutcome where
  | ok
  | noSuchThread
  | multipleTargets
  | outOfFuel
deriving Repr, DecidableEq

/-- Map a delivery outcome to the call outcome: the two error exits become
the raised errors, everything else returns normally. -/
def deliveryToOutcome : DeliveryOutcome → InterruptOutcome
  | .errNoSuchThread => .noSuchThread
  | .errMultipleTargets => .multipleTargets
  | _ => .ok

/-- Environment knobs for interrupt(): is a child thread alive, how many
threads SetAsyncExc affects for a given id, and whether the target is still
registered when its cancel monitor is acquired (false models the target
unregistering concurrently between the first lookup and the monitor). -/
structure Env where
  alive : Nat → Bool
  asyncRc : Nat → Nat
  stillRegistered : Nat → Bool

/-- The child loop of interrupt() (lines 241-251): for each recorded child
id, skip it when its state is gone or its thread is not alive, otherwise
attempt stp (the recursive interrupt at the next fuel level); a ValueError
(noSuchThread) from the attempt is swallowed and iteration continues with
the remaining siblings, while any other error aborts the whole call. -/
def interrupt_children (env : Env)
    (stp : Registry → Nat → Registry × InterruptOutcome) :
    Registry → List Nat → Registry × InterruptOutcome
  | reg, [] => (reg, .ok)
  | reg, c :: rest =>
    match Registry.find reg c with
    | none => interrupt_children env stp reg rest
    | some _ =>
      if env.alive c then
        match stp reg c with
        | (reg1, .noSuchThread) => interrupt_children env stp reg1 rest
        | (reg1, .ok) => interrupt_children env stp reg1 rest
        | (reg1, e) => (reg1, e)
      else interrupt_children env stp reg rest

/-- InterruptibleThread.interrupt (lines 237-266), with fuel bounding the
recursion depth.  Order as in the source: initial registry lookup (absent
raises ValueError), the recursive child pass when requested, then the
monitored re-check and the three-way delivery of interrupt_deliver, whose
updated state is written back through the registry alias. -/
def interrupt : Nat → Env → Registry → Nat → Bool → Registry × InterruptOutcome
  | 0, _, reg, _, _ => (reg, .outOfFuel)
  | fuel + 1, env, reg, tid, recursive =>
    match Registry.find reg tid with
    | none => (reg, .noSuchThread)
    | some st =>
      match (if recursive then
              interrupt_children env (fun r c => interrupt fuel env r c true)
                reg st.childrenTids
             else (reg, .ok)) with
      | (reg1, .ok) =>
        if env.stillRegistered tid then
          match Registry.find reg1 tid with
          | some st1 =>
            let d := interrupt_deliver true st1 (env.asyncRc tid)
            (Registry.set reg1 tid d.1, deliveryToOutcome d.2)
          | none => (reg1, .ok)
        else (reg1, .ok)
      | (reg1, e) => (reg1, e)

/-- Whether a module-level entry point currently holds the original stdlib
object or the cooperative replacement. -/
inductive Impl where
  | orig
  | patched
deriving Repr, DecidableEq

/-- The module-level mutable state touched by install_patches /
uninstall_patches: the class flag _patches_installed, which implementation
time.sleep, selectors.DefaultSelector and select.select currently hold, and
whether threading.Thread, threading.__getattr__ and threading.__dir__ are
present as attributes (del of an absent attribute raises AttributeError). -/
structure PatchEnv where
  patchesInstalled : Bool
  sleepImpl : Impl
  defaultSelectorImpl : Impl
  selectImpl : Impl
  threadAttr : Bool
  getattrHook : Bool
  dirHook : Bool
deriving Repr, DecidableEq

/-- Errors out of the patch layer: the two ValueError guards and an
AttributeError from deleting an absent module attribute. -/
inductive PatchError where
  | alreadyInstalled
  | notInstalled
  | attributeMissing
deriving Repr, DecidableEq

/-- The import-time state: nothing installed, original implementations,
threading.Thread present, no __getattr__ / __dir__ hooks. -/
def initialPatchEnv : PatchEnv :=
  ⟨false, .orig, .orig, .orig, true, false, false⟩

/-- InterruptibleThread.install_patches (lines 278-292): fail when the flag
is already set; otherwise set the flag, swap in the three cooperative
implementations, delete threading.Thread and install the __getattr__ and
__dir__ hooks. -/
def install_patches (e : PatchEnv) : PatchEnv × Option PatchError :=
  if e.patchesInstalled then (e, some .alreadyInstalled)
  else
    let e1 := { e with
      patchesInstalled := true,
      sleepImpl := .patched,
      defaultSelectorImpl := .patched,
      selectImpl := .patched }
    if e1.threadAttr then
      ({ e1 with threadAttr := false, getattrHook := true, dirHook := true }, none)
    else (e1, some .attributeMissing)

/-- InterruptibleThread.uninstall_patches (lines 294-303): fail when the
flag is not set; otherwise restore the three originals and
threading.Thread, then delete the two hooks.  The source never clears
_patches_installed, and the model reproduces that. -/
def uninstall_patches (e : PatchEnv) : PatchEnv × Option PatchError :=
  if e.patchesInstalled then
    let e1 := { e with
      sleepImpl := .orig,
      selectImpl := .orig,
      defaultSelectorImpl := .orig,
      threadAttr := true }
    if e1.getattrHook then
      let e2 := { e1 with getattrHook := false }
      if e2.dirHook then ({ e2 with dirHook := false }, none)
      else (e2, some .attributeMissing)
    else (e1, some .attributeMissing)
  else (e, some .notInstalled)

/-! Sample states used by closed evaluations and witnesses. -/

/-- A quiescent managed-thread state: no children, not waiting, no pending
cancellation, pipe fds 3 and 4, empty pipe. -/
def st0 : ThreadState := ⟨[], false, false, false, false, 3, 4, 0⟩

/-- A state observed mid cooperative sleep. -/
def stSleeping : ThreadState := ⟨[], true, false, false, false, 3, 4, 0⟩

/-- A quiescent state whose pipe holds one unread wakeup byte. -/
def stByte : ThreadState := ⟨[], false, false, false, false, 3, 4, 1⟩

/-- A state with both cancellation flags pending and neither wait flag set
(as left by an interrupt delivered while waiting, after the wait flag was
cleared). -/
def stBoth : ThreadState := ⟨[], false, true, false, true, 3, 4, 0⟩

/-- An environment with every knob in its normal position: children alive,
SetAsyncExc affecting exactly one thread, targets still registered at the
monitored re-check. -/
def env0 : Env := ⟨fun _ => true, fun _ => 1, fun _ => true⟩

/-- Like env0 but the monitored re-check finds every target unregistered. -/
def envGone : Env := ⟨fun _ => true, fun _ => 1, fun _ => false⟩

/-- C1.  The claim states both multiplexer wrappers treat a wait as
cancelled exactly when the sentinel descriptor is ready or
cancel_select_notified is set.  _patched_select does (second conjunct), but
_InterruptibleSelector.select compares the ready keys against the
misspelled tag "__wakup__" while the sentinel is registered as
"__wakeup__", so a wait whose ready set holds exactly the sentinel and
whose flag is clear is NOT treated as cancelled: it drains the pipe,
filters the sentinel out and returns normally (first conjunct). -/
theorem c1_selector_misses_ready_sentinel :
    selector_select (some stByte) [(⟨3, "__wakeup__"⟩, 1)] =
      (some { stByte with pendingBytes := 0 }, Except.ok []) ∧
    ∀ (s : ThreadState) (rlist wlist xlist rr ww xx : List Nat),
      (patched_select false (some s) rlist wlist xlist rr ww xx).2 = .error ()
        ↔ (s.rfd ∈ rr ∨ s.cancelSelectNotified = true) := by
  constructor
  · rfl
  · intro s rlist wlist xlist rr ww xx
    by_cases h1 : s.rfd ∈ rr <;> cases h2 : s.cancelSelectNotified <;>
      simp [patched_select, h1, h2]

/-- C2.  When the target is still registered at the monitored re-check and
SetAsyncExc behaves normally (affects exactly one thread), interrupt's
delivery section takes exactly one of the three actions, decided by the
wait flags observed under the monitor: sleeping targets get the sleep flag
set and a condition notify; else selecting targets get the select flag set
and a byte written to the wakeup pipe; else the cancellation signal is
injected asynchronously into the target thread. -/
theorem c2_three_way_dispatch (st : ThreadState) (rc : Nat) (hrc : rc = 1) :
    interrupt_deliver true st rc =
      if st.sleeping then
        ({ st with
            cancelSleepNotified := true,
            cancelSelectNotified := st.selecting }, .wokeSleeper)
      else if st.selecting then
        ({ st with
            cancelSleepNotified := false,
            cancelSelectNotified := true,
            pendingBytes := st.pendingBytes + 1 }, .wroteWakeupByte)
      else
        ({ st with
            cancelSleepNotified := false,
            cancelSelectNotified := false }, .injectedAsync) := by
  subst hrc
  cases hs : st.sleeping <;> cases hl : st.selecting <;>
    simp [interrupt_deliver, hs, hl]

/-- Witness for C2 at a concrete sleeping target. -/
theorem c2_three_way_dispatch_witness :
    interrupt_deliver true stSleeping 1 =
      ({ stSleeping with
          cancelSleepNotified := true,
          cancelSelectNotified := false }, .wokeSleeper) := by
  have h := c2_three_way_dispatch stSleeping 1 rfl
  simpa [stSleeping] using h

/-- C3.  Code bug: install twice fails with AlreadyInstalled and uninstall
before any install fails with NotInstalled (last three conjuncts), and a
successful uninstall restores all original primitives (third conjunct) —
but uninstall_patches never clears _patches_installed, so after a
successful install/uninstall cycle the layer still counts as installed and
a subsequent install fails with AlreadyInstalled, contradicting the claim
that it succeeds again. -/
theorem c3_uninstall_leaves_flag_installed :
    (install_patches initialPatchEnv).2 = none ∧
    (uninstall_patches (install_patches initialPatchEnv).1).2 = none ∧
    ((uninstall_patches (install_patches initialPatchEnv).1).1.sleepImpl = .orig ∧
     (uninstall_patches (install_patches initialPatchEnv).1).1.selectImpl = .orig ∧
     (uninstall_patches (install_patches initialPatchEnv).1).1.defaultSelectorImpl = .orig ∧
     (uninstall_patches (install_patches initialPatchEnv).1).1.threadAttr = true) ∧
    (uninstall_patches (install_patches initialPatchEnv).1).1.patchesInstalled = true ∧
    (install_patches (uninstall_patches (install_patches initialPatchEnv).1).1).2 =
      some .alreadyInstalled ∧
    (install_patches (install_patches initialPatchEnv).1).2 = some .alreadyInstalled ∧
    (uninstall_patches initialPatchEnv).2 = some .notInstalled := by
  decide

/-- C4.  interrupt on an identity with no registered ThreadState fails with
ValueError (no such thread) and leaves the registry untouched, for every
environment, fuel and recursive flag. -/
theorem c4_absent_target_no_such_thread (fuel : Nat) (env : Env) (reg : Registry)
    (tid : Nat) (recursive : Bool) (h : Registry.find reg tid = none) :
    interrupt (fuel + 1) env reg tid recursive = (reg, .noSuchThread) := by
  simp [interrupt, h]

/-- Witness for C4: interrupting id 5 with an empty registry. -/
theorem c4_absent_target_no_such_thread_witness :
    interrupt 1 env0 [] 5 false = ([], .noSuchThread) :=
  c4_absent_target_no_such_thread 0 env0 [] 5 false rfl

/-- C5.  When the initial lookup finds the target but the monitored
re-check observes it unregistered, interrupt returns normally and the
registry (hence every per-thread state) is unchanged. -/
theorem c5_unregistered_recheck_silent_noop (fuel : Nat) (env : Env) (reg : Registry)
    (tid : Nat) (st : ThreadState) (h1 : Registry.find reg tid = some st)
    (h2 : env.stillRegistered tid = false) :
    interrupt (fuel + 1) env reg tid false = (reg, .ok) := by
  simp [interrupt, h1, h2]

/-- Witness for C5: a registered target whose re-check fails. -/
theorem c5_unregistered_recheck_silent_noop_witness :
    interrupt 1 envGone [(7, st0)] 7 false = ([(7, st0)], .ok) :=
  c5_unregistered_recheck_silent_noop 0 envGone [(7, st0)] 7 st0 rfl rfl

/-- C6.  coop_sleep on the main thread or on an unmanaged thread performs
the original timed sleep and returns normally; on a managed thread it sets
sleeping, waits on the condition variable with the given timeout, clears
sleeping, and raises KeyboardInterrupt exactly when cancel_sleep_notified
is set (and returns normally otherwise). -/
theorem c6_coop_sleep_dispatch (D : Type) (secs : D) (st : Option ThreadState)
    (s : ThreadState) :
    coop_sleep true st secs = ⟨st, [.origSleep secs], false⟩ ∧
    coop_sleep false (none : Option ThreadState) secs =
      ⟨none, [.origSleep secs], false⟩ ∧
    coop_sleep false (some s) secs =
      ⟨some { s with sleeping := false },
       [.setSleeping true, .condWait secs, .setSleeping false],
       s.cancelSleepNotified⟩ :=
  ⟨rfl, rfl, rfl⟩

/-- C9.  Whenever the delivery section runs past the re-check, it assigns
both cancel flags from the currently observed wait flags, in every branch
(including the error exits): a target neither sleeping nor selecting has
both flags reset to false, erasing any pending cancellation. -/
theorem c9_delivery_overwrites_both_flags (st : ThreadState) (rc : Nat) :
    (interrupt_deliver true st rc).1.cancelSleepNotified = st.sleeping ∧
    (interrupt_deliver true st rc).1.cancelSelectNotified = st.selecting := by
  unfold interrupt_deliver
  split_ifs <;> simp_all <;> split_ifs <;> simp_all

/-! Helper lemmas shared by the multiplexer claims. -/

/-- selector_select on a managed thread always hands back a state, with the
wakeup read end unchanged. -/
theorem selector_select_rfd (s : ThreadState) (evs : List SelEvent) :
    ((selector_select (some s) evs).1).map (fun t => t.rfd) = some s.rfd := by
  simp only [selector_select]
  split <;> split <;> rfl

/-- When a managed selector wait returns normally, the returned ready list
is the input filtered of every key tagged "__wakeup__"; under the invariant
that the inner selector only reports the wakeup fd under that tag, no
returned event carries the wakeup fd. -/
theorem selector_select_ok_excludes (s : ThreadState) (evs : List SelEvent)
    (l : List SelEvent) (R : Nat)
    (hevs : ∀ ev ∈ evs, ev.1.fd = R → ev.1.data = "__wakeup__")
    (hok : (selector_select (some s) evs).2 = .ok l) :
    ∀ ev ∈ l, ev.1.fd ≠ R := by
  simp only [selector_select] at hok
  split at hok
  · exact absurd hok (by simp)
  · intro ev hev hfd
    rw [Except.ok.injEq] at hok
    subst hok
    rcases List.mem_filter.1 hev with ⟨hmem, hdata⟩
    have := hevs ev hmem hfd
    simp [this] at hdata

/-- C7.  Across any number of successive waits on the same managed thread,
the selector wrapper never hands the caller an event whose descriptor is
the internal wakeup read end (given that the inner selector reports that
descriptor only under its registered "__wakeup__" tag); and _patched_select
never includes the wakeup read end in the ready read list it returns. -/
theorem c7_sentinel_never_handed_to_caller :
    (∀ (s : ThreadState) (R : Nat) (batches : List (List SelEvent)),
      s.rfd = R →
      (∀ evs ∈ batches, ∀ ev ∈ evs, ev.1.fd = R → ev.1.data = "__wakeup__") →
      ∀ r ∈ (selector_waits (some s) batches).2, ∀ l, r = .ok l →
        ∀ ev ∈ l, ev.1.fd ≠ R) ∧
    (∀ (s : ThreadState) (rlist wlist xlist rr ww xx : List Nat)
      (out : List Nat × List Nat × List Nat),
      (patched_select false (some s) rlist wlist xlist rr ww xx).2 = .ok out →
      s.rfd ∉ out.1) := by
  constructor
  · intro s R batches
    induction batches generalizing s with
    | nil => intro _ _ r hr; simp [selector_waits] at hr
    | cons evs rest ih =>
      intro hR hb r hr l hl
      simp only [selector_waits, List.mem_cons] at hr
      rcases hr with hr | hr
      · subst hr
        exact selector_select_ok_excludes s evs l R
          (hb evs (List.mem_cons_self evs rest)) hl
      · have hmap := selector_select_rfd s evs
        rcases Option.map_eq_some'.1 hmap with ⟨s1, hs1, hrfd⟩
        rw [hs1] at hr
        exact ih s1 (by rw [hrfd, hR])
          (fun e he => hb e (List.mem_cons_of_mem evs he)) r hr l hl
  · intro s rlist wlist xlist rr ww xx out hok
    by_cases h1 : s.rfd ∈ rr
    · exact absurd hok (by simp [patched_select, h1])
    · cases h2 : s.cancelSelectNotified
      · simp [patched_select, h1, h2] at hok
        subst hok
        intro hmem
        have := (List.mem_filter.1 hmem).2
        simp at this
        exact h1 this
      · exact absurd hok (by simp [patched_select, h1, h2])

/-- Witness for C7: with wakeup fd 3, two successive selector waits (first
ready set holds only the sentinel, second a caller key on fd 5) never hand
back fd 3, and a patched select whose underlying ready read list is [5]
returns a ready list without fd 3. -/
theorem c7_sentinel_never_handed_to_caller_witness :
    ((⟨5, "caller"⟩, 1) : SelEvent).1.fd ≠ 3 ∧
    stByte.rfd ∉ ([5] : List Nat) := by
  have h := c7_sentinel_never_handed_to_caller
  constructor
  · have hres : (selector_waits (some stByte)
        [[(⟨3, "__wakeup__"⟩, 1)], [(⟨5, "caller"⟩, 1)]]).2 =
        [Except.ok [], Except.ok [(⟨5, "caller"⟩, 1)]] := rfl
    refine h.1 stByte 3 [[(⟨3, "__wakeup__"⟩, 1)], [(⟨5, "caller"⟩, 1)]] rfl
      (by decide) (Except.ok [(⟨5, "caller"⟩, 1)]) ?_
      [(⟨5, "caller"⟩, 1)] rfl (⟨5, "caller"⟩, 1) (List.mem_singleton.2 rfl)
    rw [hres]
    exact List.mem_cons_of_mem _ (List.mem_cons_self _ _)
  · exact h.2 stByte [3, 5] [] [] [5] [] [] ([5], [], []) rfl

/-- C8.  The recursive child pass of interrupt: a child with no registered
state is skipped and iteration continues with the remaining siblings
(first conjunct); a live child whose interrupt raises no-such-thread is
skipped the same way (second conjunct); a successfully interrupted child
also lets iteration continue (third conjunct); when every attempted child
interrupt either succeeds or raises no-such-thread, the whole child pass
surfaces no error (fourth conjunct); and after a child pass that ends
normally the target itself receives the three-way delivery (fifth
conjunct). -/
theorem c8_recursive_child_pass (env : Env)
    (stp : Registry → Nat → Registry × InterruptOutcome)
    (reg reg1 : Registry) (c : Nat) (rest : List Nat) (cst : ThreadState)
    (fuel tid : Nat) (st st1 : ThreadState) :
    (Registry.find reg c = none →
      interrupt_children env stp reg (c :: rest) =
        interrupt_children env stp reg rest) ∧
    (Registry.find reg c = some cst → env.alive c = true →
      stp reg c = (reg1, .noSuchThread) →
      interrupt_children env stp reg (c :: rest) =
        interrupt_children env stp reg1 rest) ∧
    (Registry.find reg c = some cst → env.alive c = true →
      stp reg c = (reg1, .ok) →
      interrupt_children env stp reg (c :: rest) =
        interrupt_children env stp reg1 rest) ∧
    ((∀ r i, (stp r i).2 = .ok ∨ (stp r i).2 = .noSuchThread) →
      ∀ (l : List Nat) (r0 : Registry),
        (interrupt_children env stp r0 l).2 = .ok) ∧
    (Registry.find reg tid = some st →
      interrupt_children env (fun r i => interrupt fuel env r i true) reg
        st.childrenTids = (reg1, .ok) →
      env.stillRegistered tid = true →
      Registry.find reg1 tid = some st1 →
      interrupt (fuel + 1) env reg tid true =
        (Registry.set reg1 tid (interrupt_deliver true st1 (env.asyncRc tid)).1,
         deliveryToOutcome (interrupt_deliver true st1 (env.asyncRc tid)).2)) := by
  refine ⟨?_, ?_, ?_, ?_, ?_⟩
  · intro h
    simp [interrupt_children, h]
  · intro h ha hstp
    simp [interrupt_children, h, ha, hstp]
  · intro h ha hstp
    simp [interrupt_children, h, ha, hstp]
  · intro hok l
    induction l with
    | nil => intro r0; simp [interrupt_children]
    | cons c0 rest0 ih =>
      intro r0
      cases hf : Registry.find r0 c0
      · simpa [interrupt_children, hf] using ih r0
      · cases ha : env.alive c0
        · simpa [interrupt_children, hf, ha] using ih r0
        · rcases hp : stp r0 c0 with ⟨r1, o⟩
          have h2 := hok r0 c0
          rw [hp] at h2
          cases o with
          | ok => simpa [interrupt_children, hf, ha, hp] using ih r1
          | noSuchThread => simpa [interrupt_children, hf, ha, hp] using ih r1
          | multipleTargets => simp at h2
          | outOfFuel => simp at h2
  · intro hfind hch hreg hfind1
    simp [interrupt, hfind, hch, hreg, hfind1]

/-- Witness for C8: a dead-on-arrival child (state present, recursive
interrupt reports no-such-thread) is skipped, and a target with no children
still gets its delivery after the empty child pass. -/
theorem c8_recursive_child_pass_witness :
    interrupt_children env0 (fun r _ => (r, .noSuchThread)) [(1, st0)] [1, 2] =
      interrupt_children env0 (fun r _ => (r, .noSuchThread)) [(1, st0)] [2] ∧
    interrupt 1 env0 [(7, st0)] 7 true =
      (Registry.set [(7, st0)] 7 (interrupt_deliver true st0 (env0.asyncRc 7)).1,
       deliveryToOutcome (interrupt_deliver true st0 (env0.asyncRc 7)).2) := by
  constructor
  · exact (c8_recursive_child_pass env0 (fun r _ => (r, .noSuchThread))
      [(1, st0)] [(1, st0)] 1 [2] st0 0 0 st0 st0).2.1 rfl rfl rfl
  · exact (c8_recursive_child_pass env0 (fun r _ => (r, .noSuchThread))
      [(7, st0)] [(7, st0)] 1 [] st0 0 7 st0 st0).2.2.2.2 rfl rfl rfl rfl

/-- C10.  The waiter side never clears a cancellation flag: a managed
cooperative sleep leaves both cancel flags exactly as they were (its state
result differs from the input only in the sleeping flag) and raises
KeyboardInterrupt precisely when cancel_sleep_notified is set; both
multiplexer waits leave both cancel flags unchanged and raise
KeyboardInterrupt whenever cancel_select_notified is set, whatever the
ready sets are.  So a flag set by interrupt stays set through any number of
subsequent waits, each of which raises, until some later interrupt call
overwrites it. -/
theorem c10_waiter_never_clears_flags (D : Type) (secs : D) (s : ThreadState)
    (evs : List SelEvent) (rlist wlist xlist rr ww xx : List Nat) :
    ((coop_sleep false (some s) secs).state = some { s with sleeping := false } ∧
     (coop_sleep false (some s) secs).interrupted = s.cancelSleepNotified) ∧
    (((selector_select (some s) evs).1).map (fun t => t.cancelSelectNotified) =
        some s.cancelSelectNotified ∧
     ((selector_select (some s) evs).1).map (fun t => t.cancelSleepNotified) =
        some s.cancelSleepNotified ∧
     (s.cancelSelectNotified = true →
       (selector_select (some s) evs).2 = .error ())) ∧
    (((patched_select false (some s) rlist wlist xlist rr ww xx).1).map
        (fun t => t.cancelSelectNotified) = some s.cancelSelectNotified ∧
     ((patched_select false (some s) rlist wlist xlist rr ww xx).1).map
        (fun t => t.cancelSleepNotified) = some s.cancelSleepNotified ∧
     (s.cancelSelectNotified = true →
       (patched_select false (some s) rlist wlist xlist rr ww xx).2 =
         .error ())) := by
  refine ⟨⟨rfl, rfl⟩, ⟨?_, ?_, ?_⟩, ⟨?_, ?_, ?_⟩⟩
  · simp only [selector_select]
    split <;> split <;> rfl
  · simp only [selector_select]
    split <;> split <;> rfl
  · intro h
    simp [selector_select, h]
  · by_cases h1 : s.rfd ∈ rr <;> cases h2 : s.cancelSelectNotified <;>
      simp [patched_select, h1, h2]
  · by_cases h1 : s.rfd ∈ rr <;> cases h2 : s.cancelSelectNotified <;>
      simp [patched_select, h1, h2]
  · intro h
    simp [patched_select, h]

/-- Witness for C10: a state with both cancel flags pending makes the
sleep and both multiplexer waits raise. -/
theorem c10_waiter_never_clears_flags_witness :
    (coop_sleep false (some stBoth) (5 : Nat)).interrupted = true ∧
    (selector_select (some stBoth) []).2 = .error () ∧
    (patched_select false (some stBoth) [] [] [] [] [] []).2 = .error () := by
  have h := c10_waiter_never_clears_flags Nat 5 stBoth [] [] [] [] [] [] []
  exact ⟨h.1.2, h.2.1.2.2 rfl, h.2.2.2.2 rfl⟩

end InterruptibleThreading
